import Mathlib

/-!
Verification of the natural-language specification of
`langchain/chains/graph_qa/nebulagraph.py` (class `NebulaGraphQAChain`)
against a shallow embedding of the source.

The class is a linear question-answering pipeline over a graph store:
extract the question from the request, fetch the schema from the graph
store, run the nGQL-generation LLM chain on (question, schema), emit two
log lines, execute the generated query against the store, emit two more
log lines, run the QA LLM chain on (question, context) and return the
answer under the output key.

The embedding records every collaborator call and every observability
emission as an event, so that ordering, call-count and data-flow claims
become statements about the produced event trace. The context value
returned by the store is kept opaque as a type parameter `κ`, exactly as
the source treats it. Collaborators (the two LLM chains and the store
query) may fail; a failure is an `Except.error` that the pipeline
propagates, mirroring an uncaught Python exception.
-/

namespace NebulaGraphQA

/-- Error taxonomy of the pipeline, following section 7 of the spec:
a missing question key, a failing store query, or a failing generation
call. In the Python source these are an input-validation error raised by
the `Chain` base class, an exception raised by `graph.query`, and an
exception raised by an `LLMChain` call. -/
inductive ChainError where
  | missingInput (key : String)
  | graphQueryError (msg : String)
  | generationError (msg : String)
deriving DecidableEq, Repr

/-- Embedding of the graph-store collaborator (`langchain.graphs.nebula_graph.NebulaGraph`,
used by the source via `self.graph.get_schema` and `self.graph.query`).
Modelled from the spec where the store code is outside src/:
`get_schema() -> string`, `query(text: string) -> contextValue`, where the
query call may raise. -/
structure NebulaGraph (κ : Type) where
  get_schema : String
  query : String → Except ChainError κ

/-- Embedding of the nGQL-generation `LLMChain` binding, called by the
source as `self.ngql_generation_chain.run(\x7b"question": ..., "schema": ...\x7d)`.
Modelled from the spec where `LLMChain` is outside src/:
`run(variables: mapping) -> string`, and the call may raise a generation
error. The two template variables are passed positionally (question,
schema). -/
structure NgqlGenerationChain where
  run : String → String → Except ChainError String

/-- Embedding of the QA `LLMChain` binding, called by the source as
`self.qa_chain(\x7b"question": ..., "context": ...\x7d)` followed by
extraction of `result[self.qa_chain.output_key]`. Modelled from the spec
where `LLMChain` is outside src/: the call produces the answer text
(the value under the output key of the inner chain) and may raise. The
context variable keeps the opaque store type `κ`. -/
structure QAChain (κ : Type) where
  run : String → κ → Except ChainError String

/-- Embedding of the pipeline configuration: the fields of
`NebulaGraphQAChain` (graph store reference and the two LLM chain
bindings), together with the `verbose` flag inherited from the `Chain`
base class, and `strCtx`, the Python builtin `str` applied to the opaque
context value in the logging statement `str(context)`. -/
structure NebulaGraphQAChain (κ : Type) where
  graph : NebulaGraph κ
  ngql_generation_chain : NgqlGenerationChain
  qa_chain : QAChain κ
  strCtx : κ → String
  verbose : Bool

/-- Embedding of `input_key: str = PrivateAttr("query")`: a fixed,
non-constructor attribute of the pipeline. -/
def NebulaGraphQAChain.input_key {κ : Type} (_ : NebulaGraphQAChain κ) : String := "query"

/-- Embedding of `output_key: str = PrivateAttr("result")`. -/
def NebulaGraphQAChain.output_key {κ : Type} (_ : NebulaGraphQAChain κ) : String := "result"

/-- Embedding of the `input_keys` property: `return [self.input_key]`. -/
def NebulaGraphQAChain.input_keys {κ : Type} (c : NebulaGraphQAChain κ) : List String :=
  [c.input_key]

/-- Embedding of the `output_keys` property: `_output_keys = [self.output_key]; return _output_keys`. -/
def NebulaGraphQAChain.output_keys {κ : Type} (c : NebulaGraphQAChain κ) : List String :=
  [c.output_key]

/-- One observable step of an invocation: a schema fetch, an
nGQL-generation call, an observability emission (`on_text`), a store
query, or a QA call. Each collaborator event records its arguments and
its returned value, so data flow between steps is visible in the trace. -/
inductive Event (κ : Type) where
  | getSchema (result : String)
  | ngqlGen (question schema result : String)
  | onText (text : String) (verbose : Bool)
  | storeQuery (text : String) (result : Except ChainError κ)
  | qaCall (question : String) (context : κ) (result : String)
deriving Repr

deriving instance DecidableEq for Except

deriving instance DecidableEq for Event

/-- True exactly on observability-emission events. -/
def Event.isEmission {κ : Type} : Event κ → Bool
  | .onText _ _ => true
  | _ => false

/-- True exactly on answer-generation (QA chain) events. -/
def Event.isQaCall {κ : Type} : Event κ → Bool
  | .qaCall _ _ _ => true
  | _ => false

/-- Collaborator calls of a trace: the trace with the observability
emissions removed. -/
def collabCalls {κ : Type} (t : List (Event κ)) : List (Event κ) :=
  t.filter (fun e => !e.isEmission)

/-- Modelled from the spec: `_run_manager.on_text(...)` is implemented by
the callback manager, which is outside src/; per the spec the
observability sink is best-effort and fire-and-forget, so a failure of
the underlying handler is swallowed and the emission completes either
way. The handler argument represents the sink implementation, which may
fail on any given text. -/
def on_text {κ : Type} (handler : String → Except String Unit) (text : String)
    (verbose : Bool) : Event κ :=
  match handler text with
  | .ok _ => .onText text verbose
  | .error _ => .onText text verbose

/-- Embedding of `NebulaGraphQAChain._call`. The missing-key failure is
modelled from the spec (the `Chain` base class that validates inputs is
outside src/; in `_call` itself the lookup `inputs[self.input_key]`
raises on an absent key before any collaborator call, surfaced as
`MissingInputError` per the spec). All remaining steps follow the source
line by line: read the question, fetch `self.graph.get_schema`, run the
nGQL-generation chain on (question, schema), emit the header line and
the generated query, run `self.graph.query` on the generated text, emit
the header line and `str(context)`, run the QA chain on
(question, context) and return the answer under the output key. The
returned pair is (event trace, outcome). -/
def NebulaGraphQAChain.call {κ : Type} (chain : NebulaGraphQAChain κ)
    (handler : String → Except String Unit)
    (inputs : List (String × String)) :
    List (Event κ) × Except ChainError (List (String × String)) :=
  match inputs.lookup chain.input_key with
  | none => ([], .error (.missingInput chain.input_key))
  | some question =>
    let schema := chain.graph.get_schema
    match chain.ngql_generation_chain.run question schema with
    | .error e => ([.getSchema schema], .error e)
    | .ok generated_ngql =>
      let t₁ : List (Event κ) :=
        [.getSchema schema,
         .ngqlGen question schema generated_ngql,
         on_text handler "Generated nGQL:" chain.verbose,
         on_text handler generated_ngql chain.verbose]
      match chain.graph.query generated_ngql with
      | .error e => (t₁ ++ [.storeQuery generated_ngql (.error e)], .error e)
      | .ok context =>
        let t₂ : List (Event κ) :=
          t₁ ++ [.storeQuery generated_ngql (.ok context),
                 on_text handler "Full Context:" chain.verbose,
                 on_text handler (chain.strCtx context) chain.verbose]
        match chain.qa_chain.run question context with
        | .error e => (t₂, .error e)
        | .ok answer =>
          (t₂ ++ [.qaCall question context answer],
           .ok [(chain.output_key, answer)])

/-- Modelled from the spec: `invoke` is the public `Chain` entry point
(outside src/), which validates the request and dispatches to `_call`;
both the validation failure and the `_call` body are already captured by
`NebulaGraphQAChain.call`. -/
def NebulaGraphQAChain.invoke {κ : Type} (chain : NebulaGraphQAChain κ)
    (handler : String → Except String Unit)
    (inputs : List (String × String)) :
    List (Event κ) × Except ChainError (List (String × String)) :=
  chain.call handler inputs

/-- The sink completes the emission whatever the handler does: the event
recorded is the same whether the handler succeeds or fails. -/
theorem on_text_eq {κ : Type} (handler : String → Except String Unit)
    (text : String) (verbose : Bool) :
    on_text (κ := κ) handler text verbose = .onText text verbose := by
  unfold on_text
  cases handler text <;> rfl

/- Concrete collaborators for the end-to-end scenario of the spec. The
context type is Nat; the store returns the context value 3 on the
expected generated query. -/

/-- Question of the end-to-end scenario. -/
def aliceQuestion : String := "How many people does Alice know?"

/-- Generated nGQL text of the end-to-end scenario. -/
def aliceNgqlText : String :=
  "MATCH (p:Person \x7bname:\x27Alice\x27\x7d)-[:KNOWS]->(x) RETURN count(x)"

/-- Concrete graph store for the scenario: returns context 3 on the
expected query text, fails on any other text. -/
def aliceGraph : NebulaGraph Nat :=
  { get_schema := "node: Person(name) edge: KNOWS"
    query := fun t =>
      if t = aliceNgqlText then .ok 3 else .error (.graphQueryError t) }

/-- Concrete query-generation service for the scenario. -/
def aliceNgqlChain : NgqlGenerationChain :=
  { run := fun q _ =>
      if q = aliceQuestion then .ok aliceNgqlText
      else .error (.generationError q) }

/-- Concrete answer-generation service for the scenario: answers only on
(question, context 3). -/
def aliceQaChain : QAChain Nat :=
  { run := fun q c =>
      if q = aliceQuestion ∧ c = 3 then .ok "Alice knows 3 people."
      else .error (.generationError q) }

/-- The scenario pipeline. -/
def aliceChain : NebulaGraphQAChain Nat :=
  { graph := aliceGraph
    ngql_generation_chain := aliceNgqlChain
    qa_chain := aliceQaChain
    strCtx := fun n => toString n
    verbose := true }

/-- A sink handler that always succeeds. -/
def okHandler : String → Except String Unit := fun _ => .ok ()

/-- A sink handler that always fails. -/
def failHandler : String → Except String Unit := fun _ => .error "sink failure"

/-- A store whose every query call fails, for exercising the propagation
path. -/
def downGraph : NebulaGraph Nat :=
  { get_schema := "node: Person(name) edge: KNOWS"
    query := fun t => .error (.graphQueryError t) }

/-- The scenario pipeline wired to the failing store. -/
def downChain : NebulaGraphQAChain Nat :=
  { aliceChain with graph := downGraph }

/-- On the success path the invocation produces exactly this trace: the
schema fetch, the nGQL-generation call on (question, schema), the two
pre-query emissions, the store query on the generated text, the two
post-query emissions, and the QA call on (question, context); the
outcome is the singleton result mapping. Shared shape lemma for the
claims below. -/
theorem call_success_shape {κ : Type} (chain : NebulaGraphQAChain κ)
    (handler : String → Except String Unit) (inputs : List (String × String))
    (question generated_ngql : String) (context : κ) (answer : String)
    (hq : inputs.lookup chain.input_key = some question)
    (hg : chain.ngql_generation_chain.run question chain.graph.get_schema =
      .ok generated_ngql)
    (hc : chain.graph.query generated_ngql = .ok context)
    (ha : chain.qa_chain.run question context = .ok answer) :
    chain.call handler inputs =
      ([.getSchema chain.graph.get_schema,
        .ngqlGen question chain.graph.get_schema generated_ngql,
        .onText "Generated nGQL:" chain.verbose,
        .onText generated_ngql chain.verbose,
        .storeQuery generated_ngql (.ok context),
        .onText "Full Context:" chain.verbose,
        .onText (chain.strCtx context) chain.verbose,
        .qaCall question context answer],
       .ok [(chain.output_key, answer)]) := by
  simp only [NebulaGraphQAChain.call, hq, hg, hc, ha, on_text_eq,
    List.cons_append, List.nil_append]

/-- On the failing-store path the invocation produces the schema fetch,
the nGQL-generation call, the two pre-query emissions and the failed
store query, and propagates the store error; the QA call never happens.
Shared shape lemma for the claims below. -/
theorem call_query_error_shape {κ : Type} (chain : NebulaGraphQAChain κ)
    (handler : String → Except String Unit) (inputs : List (String × String))
    (question generated_ngql : String) (e : ChainError)
    (hq : inputs.lookup chain.input_key = some question)
    (hg : chain.ngql_generation_chain.run question chain.graph.get_schema =
      .ok generated_ngql)
    (hc : chain.graph.query generated_ngql = .error e) :
    chain.call handler inputs =
      ([.getSchema chain.graph.get_schema,
        .ngqlGen question chain.graph.get_schema generated_ngql,
        .onText "Generated nGQL:" chain.verbose,
        .onText generated_ngql chain.verbose,
        .storeQuery generated_ngql (.error e)],
       .error e) := by
  simp only [NebulaGraphQAChain.call, hq, hg, hc, on_text_eq,
    List.cons_append, List.nil_append]

/-- On the missing-key path the invocation fails at once with the
missing-input error and the trace is empty. Shared shape lemma. -/
theorem call_none_shape {κ : Type} (chain : NebulaGraphQAChain κ)
    (handler : String → Except String Unit) (inputs : List (String × String))
    (h : inputs.lookup chain.input_key = none) :
    chain.call handler inputs = ([], .error (.missingInput chain.input_key)) := by
  simp only [NebulaGraphQAChain.call, h]

/-- On the failing-generation path the invocation records the schema
fetch and propagates the generation error. Shared shape lemma. -/
theorem call_gen_error_shape {κ : Type} (chain : NebulaGraphQAChain κ)
    (handler : String → Except String Unit) (inputs : List (String × String))
    (question : String) (e : ChainError)
    (hq : inputs.lookup chain.input_key = some question)
    (hg : chain.ngql_generation_chain.run question chain.graph.get_schema =
      .error e) :
    chain.call handler inputs =
      ([.getSchema chain.graph.get_schema], .error e) := by
  simp only [NebulaGraphQAChain.call, hq, hg]

/-- On the failing-QA path the invocation records everything up to and
including the post-query emissions and propagates the generation error.
Shared shape lemma. -/
theorem call_qa_error_shape {κ : Type} (chain : NebulaGraphQAChain κ)
    (handler : String → Except String Unit) (inputs : List (String × String))
    (question generated_ngql : String) (context : κ) (e : ChainError)
    (hq : inputs.lookup chain.input_key = some question)
    (hg : chain.ngql_generation_chain.run question chain.graph.get_schema =
      .ok generated_ngql)
    (hc : chain.graph.query generated_ngql = .ok context)
    (ha : chain.qa_chain.run question context = .error e) :
    chain.call handler inputs =
      ([.getSchema chain.graph.get_schema,
        .ngqlGen question chain.graph.get_schema generated_ngql,
        .onText "Generated nGQL:" chain.verbose,
        .onText generated_ngql chain.verbose,
        .storeQuery generated_ngql (.ok context),
        .onText "Full Context:" chain.verbose,
        .onText (chain.strCtx context) chain.verbose],
       .error e) := by
  simp only [NebulaGraphQAChain.call, hq, hg, hc, ha, on_text_eq,
    List.cons_append, List.nil_append]

/-- Claim C1: for the end-to-end scenario, when `invoke` is given the
request with query "How many people does Alice know?", the
query-generation service returns the MATCH statement, the store returns
context 3 on that text, and the answer-generation service returns
"Alice knows 3 people." on (question, context 3), then `invoke` returns
exactly the mapping with the single entry ("result", "Alice knows 3 people."). -/
theorem c1_end_to_end :
    (aliceChain.invoke okHandler [("query", aliceQuestion)]).2 =
      .ok [("result", "Alice knows 3 people.")] := by
  decide

/-- Claim C2: for every request mapping that does not contain the
question key "query", `invoke` fails with a `MissingInputError` and the
event trace is empty, so none of the collaborators (schema fetch,
query-generation, store query, answer-generation) is called. -/
theorem c2_missing_input {κ : Type} (chain : NebulaGraphQAChain κ)
    (handler : String → Except String Unit) (inputs : List (String × String))
    (h : inputs.lookup chain.input_key = none) :
    chain.invoke handler inputs = ([], .error (.missingInput chain.input_key)) := by
  simp only [NebulaGraphQAChain.invoke, NebulaGraphQAChain.call, h]

/-- Witness for C2 at a concrete request lacking the "query" key. -/
theorem c2_missing_input_witness :
    (([("question", "hi")] : List (String × String)).lookup "query" = none) ∧
    aliceChain.invoke okHandler [("question", "hi")] =
      ([], .error (.missingInput "query")) :=
  ⟨by decide, c2_missing_input aliceChain okHandler [("question", "hi")] (by decide)⟩

/-- Claim C3: for every invocation in which the store query call raises
an error, `invoke` propagates that same error unmodified (no retry: the
trace holds exactly one store-query event, and no fallback), and the
answer-generation service is never called in that invocation. -/
theorem c3_store_error_propagates {κ : Type} (chain : NebulaGraphQAChain κ)
    (handler : String → Except String Unit) (inputs : List (String × String))
    (question generated_ngql : String) (e : ChainError)
    (hq : inputs.lookup chain.input_key = some question)
    (hg : chain.ngql_generation_chain.run question chain.graph.get_schema =
      .ok generated_ngql)
    (hc : chain.graph.query generated_ngql = .error e) :
    (chain.invoke handler inputs).2 = .error e ∧
    ((chain.invoke handler inputs).1.all fun ev => !ev.isQaCall) = true := by
  have hshape := call_query_error_shape chain handler inputs question generated_ngql e
    hq hg hc
  constructor
  · rw [NebulaGraphQAChain.invoke, hshape]
  · rw [NebulaGraphQAChain.invoke, hshape]
    rfl

/-- Witness for C3: the failing store propagates its error through a
concrete invocation and the trace holds no QA call. -/
theorem c3_store_error_propagates_witness :
    (([("query", aliceQuestion)] : List (String × String)).lookup "query" =
      some aliceQuestion) ∧
    downChain.graph.query aliceNgqlText = .error (.graphQueryError aliceNgqlText) ∧
    (downChain.invoke okHandler [("query", aliceQuestion)]).2 =
      .error (.graphQueryError aliceNgqlText) ∧
    ((downChain.invoke okHandler [("query", aliceQuestion)]).1.all
      fun ev => !ev.isQaCall) = true :=
  ⟨by decide, by decide,
    c3_store_error_propagates downChain okHandler [("query", aliceQuestion)]
      aliceQuestion aliceNgqlText (.graphQueryError aliceNgqlText)
      (by decide) (by decide) (by decide)⟩

/-- Claim C4: for every valid question, the context value carried by the
answer-generation call equals exactly the context value returned by the
immediately preceding store query call of the same invocation;
stringification appears only in an observability emission, while the QA
call receives the opaque value itself. -/
theorem c4_context_identity {κ : Type} (chain : NebulaGraphQAChain κ)
    (handler : String → Except String Unit) (inputs : List (String × String))
    (question generated_ngql : String) (context : κ) (answer : String)
    (hq : inputs.lookup chain.input_key = some question)
    (hg : chain.ngql_generation_chain.run question chain.graph.get_schema =
      .ok generated_ngql)
    (hc : chain.graph.query generated_ngql = .ok context)
    (ha : chain.qa_chain.run question context = .ok answer) :
    Event.qaCall question context answer ∈ (chain.invoke handler inputs).1 ∧
    Event.onText (chain.strCtx context) chain.verbose ∈ (chain.invoke handler inputs).1 ∧
    ∀ q c a, Event.qaCall q c a ∈ (chain.invoke handler inputs).1 → c = context := by
  have hshape := call_success_shape chain handler inputs question generated_ngql
    context answer hq hg hc ha
  rw [NebulaGraphQAChain.invoke, hshape]
  refine ⟨by simp, by simp, ?_⟩
  intro q c a hmem
  simp only [List.mem_cons, List.not_mem_nil, or_false] at hmem
  rcases hmem with h | h | h | h | h | h | h | h <;> first
    | (injection h with h₁ h₂ h₃; exact h₂)
    | injection h

/-- Witness for C4 on the end-to-end scenario pipeline. -/
theorem c4_context_identity_witness :
    Event.qaCall aliceQuestion 3 "Alice knows 3 people." ∈
      (aliceChain.invoke okHandler [("query", aliceQuestion)]).1 ∧
    Event.onText "3" true ∈ (aliceChain.invoke okHandler [("query", aliceQuestion)]).1 ∧
    ∀ q c a, Event.qaCall q c a ∈
      (aliceChain.invoke okHandler [("query", aliceQuestion)]).1 → c = 3 :=
  c4_context_identity aliceChain okHandler [("query", aliceQuestion)]
    aliceQuestion aliceNgqlText 3 "Alice knows 3 people."
    (by decide) (by decide) (by decide) (by decide)

/-- Claim C5: for every invocation with the question key present, the
first event of the trace is the schema fetch returning the current
schema value of the store, and every query-generation call of that
invocation receives exactly that value as its schema variable; nothing
else ever stands in the schema position, so no value cached from a prior
invocation can be reused. -/
theorem c5_schema_fresh {κ : Type} (chain : NebulaGraphQAChain κ)
    (handler : String → Except String Unit) (inputs : List (String × String))
    (question : String)
    (hq : inputs.lookup chain.input_key = some question) :
    (chain.invoke handler inputs).1.head? =
      some (.getSchema chain.graph.get_schema) ∧
    ∀ q s g, Event.ngqlGen q s g ∈ (chain.invoke handler inputs).1 →
      s = chain.graph.get_schema := by
  rw [NebulaGraphQAChain.invoke]
  rcases hg : chain.ngql_generation_chain.run question chain.graph.get_schema with e | g
  · have hcall : chain.call handler inputs =
        ([.getSchema chain.graph.get_schema], .error e) := by
      simp only [NebulaGraphQAChain.call, hq, hg]
    rw [hcall]
    refine ⟨rfl, ?_⟩
    intro q s g hmem
    simp at hmem
  · rcases hc : chain.graph.query g with e | context
    · rw [call_query_error_shape chain handler inputs question g e hq hg hc]
      refine ⟨rfl, ?_⟩
      intro q s g' hmem
      simp only [List.mem_cons, List.not_mem_nil, or_false] at hmem
      rcases hmem with h | h | h | h | h <;> first
        | (injection h with h₁ h₂ h₃; exact h₂)
        | injection h
    · rcases ha : chain.qa_chain.run question context with e | answer
      · have hcall : chain.call handler inputs =
            ([.getSchema chain.graph.get_schema,
              .ngqlGen question chain.graph.get_schema g,
              .onText "Generated nGQL:" chain.verbose,
              .onText g chain.verbose,
              .storeQuery g (.ok context),
              .onText "Full Context:" chain.verbose,
              .onText (chain.strCtx context) chain.verbose],
             .error e) := by
          simp only [NebulaGraphQAChain.call, hq, hg, hc, ha, on_text_eq,
            List.cons_append, List.nil_append]
        rw [hcall]
        refine ⟨rfl, ?_⟩
        intro q s g' hmem
        simp only [List.mem_cons, List.not_mem_nil, or_false] at hmem
        rcases hmem with h | h | h | h | h | h | h <;> first
          | (injection h with h₁ h₂ h₃; exact h₂)
          | injection h
      · rw [call_success_shape chain handler inputs question g context answer
          hq hg hc ha]
        refine ⟨rfl, ?_⟩
        intro q s g' hmem
        simp only [List.mem_cons, List.not_mem_nil, or_false] at hmem
        rcases hmem with h | h | h | h | h | h | h | h <;> first
          | (injection h with h₁ h₂ h₃; exact h₂)
          | injection h

/-- Witness for C5 on the end-to-end scenario pipeline. -/
theorem c5_schema_fresh_witness :
    (aliceChain.invoke okHandler [("query", aliceQuestion)]).1.head? =
      some (.getSchema "node: Person(name) edge: KNOWS") ∧
    ∀ q s g, Event.ngqlGen q s g ∈
        (aliceChain.invoke okHandler [("query", aliceQuestion)]).1 →
      s = "node: Person(name) edge: KNOWS" :=
  c5_schema_fresh aliceChain okHandler [("query", aliceQuestion)] aliceQuestion
    (by decide)

/-- Claim C6: for every successful invocation the collaborator calls
occur in the strict sequential order schema fetch, query generation,
query execution, answer generation; each event consumes the previous
event's recorded output (the generation call takes the fetched schema,
the store query takes the generated text, the QA call takes the queried
context), and the trace holds no repetition, branch or loop. -/
theorem c6_sequential_order {κ : Type} (chain : NebulaGraphQAChain κ)
    (handler : String → Except String Unit) (inputs : List (String × String))
    (question generated_ngql : String) (context : κ) (answer : String)
    (hq : inputs.lookup chain.input_key = some question)
    (hg : chain.ngql_generation_chain.run question chain.graph.get_schema =
      .ok generated_ngql)
    (hc : chain.graph.query generated_ngql = .ok context)
    (ha : chain.qa_chain.run question context = .ok answer) :
    collabCalls (chain.invoke handler inputs).1 =
      [.getSchema chain.graph.get_schema,
       .ngqlGen question chain.graph.get_schema generated_ngql,
       .storeQuery generated_ngql (.ok context),
       .qaCall question context answer] := by
  rw [NebulaGraphQAChain.invoke,
    call_success_shape chain handler inputs question generated_ngql context answer
      hq hg hc ha]
  rfl

/-- Witness for C6 on the end-to-end scenario pipeline. -/
theorem c6_sequential_order_witness :
    collabCalls (aliceChain.invoke okHandler [("query", aliceQuestion)]).1 =
      [.getSchema "node: Person(name) edge: KNOWS",
       .ngqlGen aliceQuestion "node: Person(name) edge: KNOWS" aliceNgqlText,
       .storeQuery aliceNgqlText (.ok 3),
       .qaCall aliceQuestion 3 "Alice knows 3 people."] :=
  c6_sequential_order aliceChain okHandler [("query", aliceQuestion)]
    aliceQuestion aliceNgqlText 3 "Alice knows 3 people."
    (by decide) (by decide) (by decide) (by decide)

/-- Claim C7: the pipeline takes its question from the request under
exactly the key "query" and returns a mapping whose sole entry holds the
answer under exactly the key "result"; the declared input keys are
exactly ["query"] and the declared output keys exactly ["result"]. -/
theorem c7_interface_keys {κ : Type} (chain : NebulaGraphQAChain κ) :
    chain.input_keys = ["query"] ∧ chain.output_keys = ["result"] ∧
    ∀ (handler : String → Except String Unit) (inputs : List (String × String))
      (question generated_ngql : String) (context : κ) (answer : String),
      inputs.lookup "query" = some question →
      chain.ngql_generation_chain.run question chain.graph.get_schema =
        .ok generated_ngql →
      chain.graph.query generated_ngql = .ok context →
      chain.qa_chain.run question context = .ok answer →
      (chain.invoke handler inputs).2 = .ok [("result", answer)] := by
  refine ⟨rfl, rfl, ?_⟩
  intro handler inputs question generated_ngql context answer hq hg hc ha
  rw [NebulaGraphQAChain.invoke,
    call_success_shape chain handler inputs question generated_ngql context answer
      hq hg hc ha]
  rfl

/-- Witness for C7 on the end-to-end scenario pipeline. -/
theorem c7_interface_keys_witness :
    aliceChain.input_keys = ["query"] ∧ aliceChain.output_keys = ["result"] ∧
    (aliceChain.invoke okHandler [("query", aliceQuestion)]).2 =
      .ok [("result", "Alice knows 3 people.")] :=
  ⟨(c7_interface_keys aliceChain).1, (c7_interface_keys aliceChain).2.1,
    (c7_interface_keys aliceChain).2.2 okHandler [("query", aliceQuestion)]
      aliceQuestion aliceNgqlText 3 "Alice knows 3 people."
      (by decide) (by decide) (by decide) (by decide)⟩

/-- Counterexample to C8 as stated: the end-to-end scenario invocation
succeeds, yet it performs four observability emissions rather than two,
because the source emits a header line and a value line at each of the
two emission points (lines 76-85 of the source: two `on_text` calls
before the store query and two after). -/
theorem c8_two_emissions_counterexample :
    (aliceChain.invoke okHandler [("query", aliceQuestion)]).2 =
      .ok [("result", "Alice knows 3 people.")] ∧
    ¬ (((aliceChain.invoke okHandler [("query", aliceQuestion)]).1.filter
        Event.isEmission).length = 2) := by
  decide

/-- Claim C8 as amended: every successful invocation performs exactly
four observability emissions — the header "Generated nGQL:" and the
generated query text before query execution, then the header
"Full Context:" and the stringified context after query execution — and
each emission is best-effort and non-fatal: the entire outcome of the
invocation is the same whatever the sink handler does, so a failure
inside the sink never raises out of the invocation and never aborts the
pipeline. -/
theorem c8_emissions_amended {κ : Type} (chain : NebulaGraphQAChain κ)
    (handler handler' : String → Except String Unit)
    (inputs : List (String × String))
    (question generated_ngql : String) (context : κ) (answer : String)
    (hq : inputs.lookup chain.input_key = some question)
    (hg : chain.ngql_generation_chain.run question chain.graph.get_schema =
      .ok generated_ngql)
    (hc : chain.graph.query generated_ngql = .ok context)
    (ha : chain.qa_chain.run question context = .ok answer) :
    (chain.invoke handler inputs).1.filter Event.isEmission =
      [.onText "Generated nGQL:" chain.verbose,
       .onText generated_ngql chain.verbose,
       .onText "Full Context:" chain.verbose,
       .onText (chain.strCtx context) chain.verbose] ∧
    chain.invoke handler inputs = chain.invoke handler' inputs := by
  rw [NebulaGraphQAChain.invoke, NebulaGraphQAChain.invoke,
    call_success_shape chain handler inputs question generated_ngql context answer
      hq hg hc ha,
    call_success_shape chain handler' inputs question generated_ngql context answer
      hq hg hc ha]
  exact ⟨rfl, rfl⟩

/-- Witness for the amended C8, run with the always-failing sink handler:
the four emissions happen and the outcome agrees with the run under the
always-succeeding handler. -/
theorem c8_emissions_amended_witness :
    (aliceChain.invoke failHandler [("query", aliceQuestion)]).1.filter
      Event.isEmission =
      [.onText "Generated nGQL:" true,
       .onText aliceNgqlText true,
       .onText "Full Context:" true,
       .onText "3" true] ∧
    aliceChain.invoke failHandler [("query", aliceQuestion)] =
      aliceChain.invoke okHandler [("query", aliceQuestion)] :=
  c8_emissions_amended aliceChain failHandler okHandler [("query", aliceQuestion)]
    aliceQuestion aliceNgqlText 3 "Alice knows 3 people."
    (by decide) (by decide) (by decide) (by decide)

/-- State-threading form of the invocation: the source method `_call`
contains no assignment to any field of `self`, so the configuration
component of the resulting state is the incoming configuration itself. -/
def NebulaGraphQAChain.invokeSt {κ : Type} (chain : NebulaGraphQAChain κ)
    (handler : String → Except String Unit)
    (inputs : List (String × String)) :
    NebulaGraphQAChain κ ×
      (List (Event κ) × Except ChainError (List (String × String))) :=
  (chain, chain.call handler inputs)

/-- Sequential invocations threading the pipeline state from one request
to the next, as a caller issuing several requests against the same
pipeline object would. -/
def NebulaGraphQAChain.invokeSeq {κ : Type} (chain : NebulaGraphQAChain κ)
    (handler : String → Except String Unit) :
    List (List (String × String)) →
      List (List (Event κ) × Except ChainError (List (String × String)))
  | [] => []
  | req :: rest =>
    ((chain.invokeSt handler req).2) ::
      ((chain.invokeSt handler req).1.invokeSeq handler rest)

/-- Claim C9: no field of the pipeline configuration is mutated during
the invocation — the threaded state after any invocation is the incoming
configuration — and an invocation's outcome does not depend on state
left by prior invocations: a sequence of requests against one pipeline
object yields exactly the outcomes of independent fresh invocations. -/
theorem c9_stateless {κ : Type} (chain : NebulaGraphQAChain κ)
    (handler : String → Except String Unit)
    (reqs : List (List (String × String))) :
    (∀ inputs, (chain.invokeSt handler inputs).1 = chain) ∧
    chain.invokeSeq handler reqs = reqs.map (chain.invoke handler) := by
  refine ⟨fun _ => rfl, ?_⟩
  induction reqs with
  | nil => rfl
  | cons req rest ih =>
    simp only [NebulaGraphQAChain.invokeSeq, NebulaGraphQAChain.invokeSt,
      NebulaGraphQAChain.invoke, List.map_cons, ih]

/-- Claim C10: the verbosity flag influences only the observability
emissions — for a fixed request and fixed collaborator behaviours,
running the pipeline with verbose true and with verbose false yields the
same outcome (hence the same returned result mapping) and the same
sequence of collaborator calls (schema fetch, query generation, store
query, answer generation). -/
theorem c10_verbose_noninterference {κ : Type} (graph : NebulaGraph κ)
    (ngen : NgqlGenerationChain) (qa : QAChain κ) (strC : κ → String)
    (handler : String → Except String Unit)
    (inputs : List (String × String)) :
    ((⟨graph, ngen, qa, strC, true⟩ :
        NebulaGraphQAChain κ).invoke handler inputs).2 =
      ((⟨graph, ngen, qa, strC, false⟩ :
        NebulaGraphQAChain κ).invoke handler inputs).2 ∧
    collabCalls ((⟨graph, ngen, qa, strC, true⟩ :
        NebulaGraphQAChain κ).invoke handler inputs).1 =
      collabCalls ((⟨graph, ngen, qa, strC, false⟩ :
        NebulaGraphQAChain κ).invoke handler inputs).1 := by
  cases hq : inputs.lookup "query" with
  | none =>
    rw [NebulaGraphQAChain.invoke, NebulaGraphQAChain.invoke,
      call_none_shape _ handler inputs hq, call_none_shape _ handler inputs hq]
    exact ⟨rfl, rfl⟩
  | some question =>
    cases hg : ngen.run question graph.get_schema with
    | error e =>
      rw [NebulaGraphQAChain.invoke, NebulaGraphQAChain.invoke,
        call_gen_error_shape _ handler inputs question e hq hg,
        call_gen_error_shape _ handler inputs question e hq hg]
      exact ⟨rfl, rfl⟩
    | ok generated_ngql =>
      cases hc : graph.query generated_ngql with
      | error e =>
        rw [NebulaGraphQAChain.invoke, NebulaGraphQAChain.invoke,
          call_query_error_shape _ handler inputs question generated_ngql e hq hg hc,
          call_query_error_shape _ handler inputs question generated_ngql e hq hg hc]
        exact ⟨rfl, rfl⟩
      | ok context =>
        cases ha : qa.run question context with
        | error e =>
          rw [NebulaGraphQAChain.invoke, NebulaGraphQAChain.invoke,
            call_qa_error_shape _ handler inputs question generated_ngql context e
              hq hg hc ha,
            call_qa_error_shape _ handler inputs question generated_ngql context e
              hq hg hc ha]
          exact ⟨rfl, rfl⟩
        | ok answer =>
          rw [NebulaGraphQAChain.invoke, NebulaGraphQAChain.invoke,
            call_success_shape _ handler inputs question generated_ngql context answer
              hq hg hc ha,
            call_success_shape _ handler inputs question generated_ngql context answer
              hq hg hc ha]
          exact ⟨rfl, rfl⟩

end NebulaGraphQA
